import Mathlib

-- Verification of the cli-llm-chatbot repository: a shallow embedding of the
-- single-file API (src/app.py), the modular API (src/app/...), the OpenAI
-- gateway (src/llm_client.py, src/app/services/llm.py) and the CLI loop
-- (src/cli.py), together with theorems settling the specification claims.

namespace CliLlmChatbot

/-- A plain role/content record, the shape produced by model_dump on a
pydantic Message and consumed by the gateway functions. -/
structure MsgDict where
  role : String
  content : String
deriving DecidableEq

/-- Embedding of the Python str.strip method (drops leading and trailing
whitespace), used by the CLI loop on raw user input. -/
def pyStrip (s : String) : String :=
  ⟨((s.data.dropWhile Char.isWhitespace).reverse.dropWhile Char.isWhitespace).reverse⟩

/-- Embedding of the Python str.lower method, used by the CLI loop for the
exit/quit test. -/
def pyLower (s : String) : String :=
  ⟨s.data.map Char.toLower⟩

-- ===== Provider (OpenAI) response model =====
-- The gateway reads response.choices[0].message.content. A missing first
-- choice raises IndexError; a missing content field raises AttributeError;
-- both are caught by the gateway. We model the message content as optional,
-- with the none case standing for the missing-content-field shape.

/-- The message object inside one choice of a provider response. -/
structure ChoiceMessage where
  content : Option String
deriving DecidableEq

/-- One entry of the choices list of a provider response. -/
structure Choice where
  message : ChoiceMessage
deriving DecidableEq

/-- The provider response: a list of choices (possibly empty). -/
structure ProviderResponse where
  choices : List Choice
deriving DecidableEq

/-- Outcome of the single outbound provider call: either a response object or
an OpenAIError exception carrying a message. -/
inductive ProviderOutcome where
  | success (response : ProviderResponse)
  | apiError (msg : String)

/-- Result of a gateway function: the returned reply string, or the
RuntimeError it raises (the ModelCallFailed condition). -/
inductive CallResult where
  | ok (reply : String)
  | runtimeError (msg : String)
deriving DecidableEq

/-- A gateway run: the result together with the list of message lists the
provider was actually invoked with (empty when no outbound call was issued). -/
structure GatewayRun where
  result : CallResult
  providerCalls : List (List MsgDict)
deriving DecidableEq

/-- Embedding of call_model from src/llm_client.py. The api key is optional
(os.getenv); the Python truthiness test treats none and the empty string as
missing. The provider argument stands for the OpenAI chat.completions.create
call. -/
def call_model (apiKey : Option String) (provider : List MsgDict → ProviderOutcome)
    (messages : List MsgDict) : GatewayRun :=
  if apiKey.getD "" = "" then
    ⟨.runtimeError "OpenAI API key is not configured.", []⟩
  else
    match provider messages with
    | .apiError exc => ⟨.runtimeError ("LLM request failed: " ++ exc), [messages]⟩
    | .success response =>
      match response.choices.head? with
      | none => ⟨.runtimeError "Unexpected response format from LLM.", [messages]⟩
      | some choice =>
        match choice.message.content with
        | none => ⟨.runtimeError "Unexpected response format from LLM.", [messages]⟩
        | some reply_text => ⟨.ok reply_text, [messages]⟩

/-- Embedding of call_llm from src/app/services/llm.py. No eager credential
check; one try block covers both the outbound call and the extraction, with
the same two except clauses as call_model (note: the generic message there
carries no trailing period). -/
def call_llm (provider : List MsgDict → ProviderOutcome)
    (messages : List MsgDict) : GatewayRun :=
  match provider messages with
  | .apiError exc => ⟨.runtimeError ("LLM request failed: " ++ exc), [messages]⟩
  | .success response =>
    match response.choices.head? with
    | none => ⟨.runtimeError "Unexpected response format from LLM", [messages]⟩
    | some choice =>
      match choice.message.content with
      | none => ⟨.runtimeError "Unexpected response format from LLM", [messages]⟩
      | some reply => ⟨.ok reply, [messages]⟩

-- ===== HTTP layer =====

/-- The role literal of a pydantic Message: one of system, user, assistant. -/
inductive Role where
  | system
  | user
  | assistant
deriving DecidableEq

/-- The string a role literal serializes to under model_dump. -/
def Role.toRoleString : Role → String
  | .system => "system"
  | .user => "user"
  | .assistant => "assistant"

/-- A pydantic Message (validated role literal plus content). -/
structure Message where
  role : Role
  content : String
deriving DecidableEq

/-- Embedding of Message.model_dump: flatten to a plain role/content record. -/
def Message.model_dump (m : Message) : MsgDict :=
  ⟨m.role.toRoleString, m.content⟩

/-- Request body of the /chat endpoint in src/app.py. -/
structure ChatRequest where
  messages : List Message
deriving DecidableEq

/-- Response body of the /chat endpoint in src/app.py (no sources field). -/
structure ChatResponse where
  reply : String
deriving DecidableEq

/-- Request body of the /chat endpoint in the modular variant
(src/app/models/schemas.py), carrying an unused optional business id. -/
structure ChatRequestMod where
  messages : List Message
  business_id : Option String := none
deriving DecidableEq

/-- Response body of the /chat endpoint in the modular variant: reply plus an
optional sources list. -/
structure ChatResponseMod where
  reply : String
  sources : Option (List String)
deriving DecidableEq

/-- Outcome of an HTTP handler: a success body, or an HTTPException with a
status code and a detail string. -/
inductive HandlerOutcome (α : Type) where
  | ok (body : α)
  | httpError (status : Nat) (detail : String)
deriving DecidableEq

/-- One handler run: its HTTP outcome, the gateway invocations it performed,
and the set of persistent writes it made. The source handlers perform no
persistence (logging aside), so every branch records an empty write set. -/
structure HandlerRun (α : Type) where
  outcome : HandlerOutcome α
  gatewayCalls : List (List MsgDict)
  persisted : List String
deriving DecidableEq

/-- Embedding of the chat handler from src/app.py: reject an empty messages
list with HTTP 400, otherwise flatten via model_dump, call the gateway, and
wrap the reply; a RuntimeError from the gateway becomes HTTP 500 with the
message as detail. -/
def chat (gw : List MsgDict → CallResult) (request : ChatRequest) :
    HandlerRun ChatResponse :=
  if request.messages = [] then
    ⟨.httpError 400 "The \x27messages\x27 list cannot be empty.", [], []⟩
  else
    let messages_dict := request.messages.map Message.model_dump
    match gw messages_dict with
    | .ok reply => ⟨.ok ⟨reply⟩, [messages_dict], []⟩
    | .runtimeError e => ⟨.httpError 500 e, [messages_dict], []⟩

/-- Embedding of the chat handler from src/app/api/routes/chat.py: same
pipeline, Spanish detail strings, sources set to none, and the 500 detail
prefixed with a fixed Spanish phrase before the gateway message. -/
def chatMod (gw : List MsgDict → CallResult) (request : ChatRequestMod) :
    HandlerRun ChatResponseMod :=
  if request.messages = [] then
    ⟨.httpError 400 "La lista \x27messages\x27 no puede estar vacía", [], []⟩
  else
    let messages_dict := request.messages.map Message.model_dump
    match gw messages_dict with
    | .ok reply => ⟨.ok ⟨reply, none⟩, [messages_dict], []⟩
    | .runtimeError e =>
      ⟨.httpError 500 ("Error al procesar el mensaje: " ++ e), [messages_dict], []⟩

-- ===== Cold-email endpoint (src/app.py) =====

/-- Request body of the /cold-email endpoint: five free-text fields plus tone
and language literals (defaults professional and en). -/
structure ColdEmailRequest where
  freelancer_profile : String
  client_business : String
  client_pain_point : String
  offer : String
  goal : String
  tone : String := "professional"
  language : String := "en"
deriving DecidableEq

/-- Response body of the /cold-email endpoint. -/
structure ColdEmailResponse where
  email : String
deriving DecidableEq

/-- The fixed system instruction assembled in generate_cold_email. -/
def system_prompt : String :=
  "Eres un copywriter experto que escribe cold emails efectivos " ++
  "para freelancers que quieren conseguir nuevos clientes. " ++
  "Escribe emails claros, concisos que suenen humanos y respetuosos. " ++
  "Siempre adáptate al idioma y tono solicitados. " ++
  "No inventes datos sobre el freelancer o el cliente."

/-- The templated user instruction assembled in generate_cold_email, a direct
transcription of the f-string concatenation in src/app.py. -/
def user_prompt (request : ColdEmailRequest) : String :=
  "Perfil del freelancer: " ++ request.freelancer_profile ++ "\n" ++
  "Negocio del cliente: " ++ request.client_business ++ "\n" ++
  "Punto de dolor del cliente: " ++ request.client_pain_point ++ "\n" ++
  "Oferta: " ++ request.offer ++ "\n" ++
  "Objetivo del email: " ++ request.goal ++ "\n" ++
  "Tono: " ++ request.tone ++ "\n" ++
  "Idioma: " ++ request.language ++ "\n\n" ++
  "Escribe un cold email que el freelancer pueda enviar a este cliente. " ++
  "Si el idioma es \x27en\x27, escribe en Inglés. Si es \x27es\x27, escribe en Español. " ++
  "El email debe estar listo para copiar y pegar."

/-- The two-message list handed to the gateway by generate_cold_email. -/
def coldEmailMessages (request : ColdEmailRequest) : List MsgDict :=
  [⟨"system", system_prompt⟩, ⟨"user", user_prompt request⟩]

/-- Embedding of the generate_cold_email handler from src/app.py. -/
def generate_cold_email (gw : List MsgDict → CallResult)
    (request : ColdEmailRequest) : HandlerRun ColdEmailResponse :=
  match gw (coldEmailMessages request) with
  | .ok reply => ⟨.ok ⟨reply⟩, [coldEmailMessages request], []⟩
  | .runtimeError e => ⟨.httpError 500 e, [coldEmailMessages request], []⟩

-- ===== CLI loop (src/cli.py) =====

/-- The initial system message the CLI history starts from. -/
def initialSystemMessage : MsgDict :=
  ⟨"system",
    "Eres un asistente útil. Responde en español de forma clara " ++
    "y concisa, " ++
    "salvo que el usuario te pida explícitamente usar otro idioma."⟩

/-- Observable effect of one iteration of the CLI while loop: whether the
loop breaks, the retained history afterwards, the print calls issued, and the
gateway invocations performed. -/
structure CliStepResult where
  terminated : Bool
  messages : List MsgDict
  printed : List String
  gatewayCalls : List (List MsgDict)
deriving DecidableEq

/-- Embedding of one iteration of the while loop in src/cli.py: strip the
input; break on exit/quit (lowercased); skip empty input; otherwise append
the user turn, call the gateway with the whole history, and on RuntimeError
print the error and pop the appended turn, on success print and append the
assistant turn. -/
def cliStep (gw : List MsgDict → CallResult) (messages : List MsgDict)
    (rawInput : String) : CliStepResult :=
  let user_input := pyStrip rawInput
  if pyLower user_input = "exit" ∨ pyLower user_input = "quit" then
    ⟨true, messages, ["Goodbye!"], []⟩
  else if user_input = "" then
    ⟨false, messages, [], []⟩
  else
    let appended := messages ++ [⟨"user", user_input⟩]
    match gw appended with
    | .runtimeError exc =>
      ⟨false, appended.dropLast, ["[error] " ++ exc], [appended]⟩
    | .ok assistant_reply =>
      ⟨false, appended ++ [⟨"assistant", assistant_reply⟩],
        ["Assistant: " ++ assistant_reply ++ "\n"], [appended]⟩

/-- The CLI histories reachable from the initial one-element history by any
sequence of loop iterations, under arbitrary inputs and gateway behavior. -/
inductive CliReachable : List MsgDict → Prop where
  | init : CliReachable [initialSystemMessage]
  | step (gw : List MsgDict → CallResult) (input : String) (h : List MsgDict) :
      CliReachable h → CliReachable ((cliStep gw h input).messages)

-- ===== Spec-side auxiliary predicates =====

/-- The string s contains the string pattern as a contiguous substring. -/
def strContains (s pattern : String) : Prop :=
  ∃ a b, s = a ++ pattern ++ b

/-- The English-output directive sentence of the cold-email user prompt. -/
def englishDirective : String := "Si el idioma es \x27en\x27, escribe en Inglés."

/-- The Spanish-output directive sentence of the cold-email user prompt. -/
def spanishDirective : String := "Si es \x27es\x27, escribe en Español."

/-- Spec-side decomposition: everything of the cold-email user prompt before
the interpolated Idioma line. Does not depend on the language field. -/
def coldEmailPromptHead (request : ColdEmailRequest) : String :=
  "Perfil del freelancer: " ++ request.freelancer_profile ++ "\n" ++
  "Negocio del cliente: " ++ request.client_business ++ "\n" ++
  "Punto de dolor del cliente: " ++ request.client_pain_point ++ "\n" ++
  "Oferta: " ++ request.offer ++ "\n" ++
  "Objetivo del email: " ++ request.goal ++ "\n" ++
  "Tono: " ++ request.tone ++ "\n"

/-- Spec-side decomposition: everything of the cold-email user prompt after
the interpolated language value. A fixed string. -/
def coldEmailPromptTail : String :=
  "\n\n" ++
  "Escribe un cold email que el freelancer pueda enviar a este cliente. " ++
  "Si el idioma es \x27en\x27, escribe en Inglés. Si es \x27es\x27, escribe en Español. " ++
  "El email debe estar listo para copiar y pegar."

-- ===== Helper lemmas =====

theorem strContains_append_left {s pattern : String} (t : String)
    (h : strContains s pattern) : strContains (t ++ s) pattern := by
  obtain ⟨a, b, rfl⟩ := h
  exact ⟨t ++ a, b, by simp [String.append_assoc]⟩

theorem strContains_append_right {s pattern : String} (t : String)
    (h : strContains s pattern) : strContains (s ++ t) pattern := by
  obtain ⟨a, b, rfl⟩ := h
  exact ⟨a, b ++ t, by simp [String.append_assoc]⟩

theorem strContains_self (p : String) : strContains p p :=
  ⟨"", "", by simp⟩

theorem strContains_append_self_right (t p : String) : strContains (t ++ p) p :=
  strContains_append_left t (strContains_self p)

theorem englishDirective_in_literal :
    strContains
      "Si el idioma es \x27en\x27, escribe en Inglés. Si es \x27es\x27, escribe en Español. "
      englishDirective :=
  ⟨"", " Si es \x27es\x27, escribe en Español. ", by decide⟩

theorem spanishDirective_in_literal :
    strContains
      "Si el idioma es \x27en\x27, escribe en Inglés. Si es \x27es\x27, escribe en Español. "
      spanishDirective :=
  ⟨"Si el idioma es \x27en\x27, escribe en Inglés. ", " ", by decide⟩

-- ===== Claim theorems =====

/-- C2: a chat request with an empty message list yields HTTP 400 with a
detail saying the list cannot be empty, and the gateway is never invoked, in
both the single-file and the modular variant. -/
theorem chat_empty_rejected_no_gateway (gw : List MsgDict → CallResult) :
    chat gw ⟨[]⟩ =
      ⟨.httpError 400 "The \x27messages\x27 list cannot be empty.", [], []⟩ ∧
    chatMod gw ⟨[], none⟩ =
      ⟨.httpError 400 "La lista \x27messages\x27 no puede estar vacía", [], []⟩ :=
  ⟨rfl, rfl⟩

/-- C7: in the single-file gateway, a missing (or empty) api key makes
call_model fail with the configuration RuntimeError and issue no outbound
provider call at all. -/
theorem call_model_missing_key_fails_fast (apiKey : Option String)
    (provider : List MsgDict → ProviderOutcome) (messages : List MsgDict)
    (hkey : apiKey.getD "" = "") :
    call_model apiKey provider messages =
      ⟨.runtimeError "OpenAI API key is not configured.", []⟩ := by
  simp [call_model, hkey]

/-- Witness for C7: with no api key configured, the gateway returns the fixed
configuration error and records zero provider calls. -/
theorem call_model_missing_key_fails_fast_witness :
    call_model none (fun _ => ProviderOutcome.apiError "unused")
        [⟨"user", "hello"⟩] =
      ⟨.runtimeError "OpenAI API key is not configured.", []⟩ :=
  call_model_missing_key_fails_fast none _ _ rfl

/-- C8: in the CLI loop, inputs exit and quit terminate the loop printing the
goodbye message, with no gateway call and no history change; an empty input
is ignored, leaving the loop running with history unchanged and no gateway
call. -/
theorem cli_exit_quit_empty (gw : List MsgDict → CallResult)
    (messages : List MsgDict) :
    cliStep gw messages "exit" = ⟨true, messages, ["Goodbye!"], []⟩ ∧
    cliStep gw messages "quit" = ⟨true, messages, ["Goodbye!"], []⟩ ∧
    cliStep gw messages "" = ⟨false, messages, [], []⟩ :=
  ⟨rfl, rfl, rfl⟩

/-- C1: for every non-empty conversation, both chat handlers pass the message
sequence through unchanged: the gateway is invoked exactly once with the
flattened role/content records of that sequence, the returned text becomes
the reply field verbatim, and the sources field is none (modular variant) or
absent from the response type (single-file variant). -/
theorem chat_passthrough_roundtrip (gw : List MsgDict → CallResult)
    (request : ChatRequest) (requestM : ChatRequestMod) (r : String)
    (hne : request.messages ≠ [])
    (hgw : gw (request.messages.map Message.model_dump) = .ok r)
    (hneM : requestM.messages ≠ [])
    (hgwM : gw (requestM.messages.map Message.model_dump) = .ok r) :
    chat gw request =
      ⟨.ok ⟨r⟩, [request.messages.map Message.model_dump], []⟩ ∧
    chatMod gw requestM =
      ⟨.ok ⟨r, none⟩, [requestM.messages.map Message.model_dump], []⟩ := by
  constructor
  · simp [chat, hne, hgw]
  · simp [chatMod, hneM, hgwM]

/-- Witness for C1: the round-trip scenario of the spec, a single user
message hello with a gateway stub returning hi there. -/
theorem chat_passthrough_roundtrip_witness :
    chat (fun _ => CallResult.ok "hi there") ⟨[⟨Role.user, "hello"⟩]⟩ =
      ⟨.ok ⟨"hi there"⟩, [[⟨"user", "hello"⟩]], []⟩ ∧
    chatMod (fun _ => CallResult.ok "hi there") ⟨[⟨Role.user, "hello"⟩], none⟩ =
      ⟨.ok ⟨"hi there", none⟩, [[⟨"user", "hello"⟩]], []⟩ :=
  chat_passthrough_roundtrip (fun _ => CallResult.ok "hi there")
    ⟨[⟨Role.user, "hello"⟩]⟩ ⟨[⟨Role.user, "hello"⟩], none⟩ "hi there"
    (by decide) rfl (by decide) rfl

/-- C3: with a configured api key, both gateway functions translate every
provider exception into the uniform RuntimeError wrapping the original
message, and every unexpected response shape (missing first choice, missing
content field) into the generic unexpected-response-format RuntimeError; the
remaining case returns the extracted text, so every input lands in one of
these outcomes and no other kind of exception escapes. -/
theorem gateway_failure_translation (apiKey : String)
    (provider : List MsgDict → ProviderOutcome) (messages : List MsgDict)
    (hkey : ¬apiKey = "") :
    (∀ exc, provider messages = .apiError exc →
      call_model (some apiKey) provider messages =
        ⟨.runtimeError ("LLM request failed: " ++ exc), [messages]⟩ ∧
      call_llm provider messages =
        ⟨.runtimeError ("LLM request failed: " ++ exc), [messages]⟩) ∧
    (∀ response, provider messages = .success response →
      response.choices.head? = none →
      call_model (some apiKey) provider messages =
        ⟨.runtimeError "Unexpected response format from LLM.", [messages]⟩ ∧
      call_llm provider messages =
        ⟨.runtimeError "Unexpected response format from LLM", [messages]⟩) ∧
    (∀ response choice, provider messages = .success response →
      response.choices.head? = some choice →
      choice.message.content = none →
      call_model (some apiKey) provider messages =
        ⟨.runtimeError "Unexpected response format from LLM.", [messages]⟩ ∧
      call_llm provider messages =
        ⟨.runtimeError "Unexpected response format from LLM", [messages]⟩) ∧
    (∀ response choice text, provider messages = .success response →
      response.choices.head? = some choice →
      choice.message.content = some text →
      call_model (some apiKey) provider messages = ⟨.ok text, [messages]⟩ ∧
      call_llm provider messages = ⟨.ok text, [messages]⟩) := by
  refine ⟨?_, ?_, ?_, ?_⟩
  · intro exc hp
    constructor <;> simp [call_model, call_llm, hkey, hp]
  · intro response hp hc
    constructor <;> simp [call_model, call_llm, hkey, hp, hc]
  · intro response choice hp hc hm
    constructor <;> simp [call_model, call_llm, hkey, hp, hc, hm]
  · intro response choice text hp hc hm
    constructor <;> simp [call_model, call_llm, hkey, hp, hc, hm]

/-- Witness for C3: a provider stub that raises an exception with message
boom is translated by both gateways into the wrapping RuntimeError. -/
theorem gateway_failure_translation_witness :
    call_model (some "sk-test") (fun _ => ProviderOutcome.apiError "boom")
        [⟨"user", "hola"⟩] =
      ⟨.runtimeError ("LLM request failed: " ++ "boom"), [[⟨"user", "hola"⟩]]⟩ ∧
    call_llm (fun _ => ProviderOutcome.apiError "boom") [⟨"user", "hola"⟩] =
      ⟨.runtimeError ("LLM request failed: " ++ "boom"), [[⟨"user", "hola"⟩]]⟩ :=
  (gateway_failure_translation "sk-test"
    (fun _ => ProviderOutcome.apiError "boom") [⟨"user", "hola"⟩]
    (by decide)).1 "boom" rfl

/-- C4: when the gateway raises the ModelCallFailed RuntimeError, each HTTP
handler (single-file chat, modular chat, cold-email) returns status 500 with
the original failure message included in the detail, and its persistent
write set is empty, so no state observable after the request differs from
the state before it. -/
theorem model_call_failed_maps_500 (gw : List MsgDict → CallResult)
    (request : ChatRequest) (requestM : ChatRequestMod)
    (ce : ColdEmailRequest) (e : String)
    (hne : request.messages ≠ [])
    (hgw : gw (request.messages.map Message.model_dump) = .runtimeError e)
    (hneM : requestM.messages ≠ [])
    (hgwM : gw (requestM.messages.map Message.model_dump) = .runtimeError e)
    (hce : gw (coldEmailMessages ce) = .runtimeError e) :
    chat gw request =
      ⟨.httpError 500 e, [request.messages.map Message.model_dump], []⟩ ∧
    chatMod gw requestM =
      ⟨.httpError 500 ("Error al procesar el mensaje: " ++ e),
        [requestM.messages.map Message.model_dump], []⟩ ∧
    generate_cold_email gw ce =
      ⟨.httpError 500 e, [coldEmailMessages ce], []⟩ := by
  refine ⟨?_, ?_, ?_⟩
  · simp [chat, hne, hgw]
  · simp [chatMod, hneM, hgwM]
  · simp [generate_cold_email, hce]

/-- Witness for C4: an always-failing gateway stub yields HTTP 500 with the
original message in the detail and an empty persistent write set on all
three handlers. -/
theorem model_call_failed_maps_500_witness :
    chat (fun _ => CallResult.runtimeError "boom") ⟨[⟨Role.user, "hello"⟩]⟩ =
      ⟨.httpError 500 "boom", [[⟨"user", "hello"⟩]], []⟩ ∧
    chatMod (fun _ => CallResult.runtimeError "boom")
        ⟨[⟨Role.user, "hello"⟩], none⟩ =
      ⟨.httpError 500 ("Error al procesar el mensaje: " ++ "boom"),
        [[⟨"user", "hello"⟩]], []⟩ ∧
    generate_cold_email (fun _ => CallResult.runtimeError "boom")
        ⟨"p", "b", "d", "o", "g", "casual", "es"⟩ =
      ⟨.httpError 500 "boom",
        [coldEmailMessages ⟨"p", "b", "d", "o", "g", "casual", "es"⟩], []⟩ :=
  model_call_failed_maps_500 (fun _ => CallResult.runtimeError "boom")
    ⟨[⟨Role.user, "hello"⟩]⟩ ⟨[⟨Role.user, "hello"⟩], none⟩
    ⟨"p", "b", "d", "o", "g", "casual", "es"⟩ "boom"
    (by decide) rfl (by decide) rfl rfl

/-- C5: cold-email assembly is a deterministic function of the request: equal
inputs render the identical ordered two-message sequence (system then user);
the user message contains all five field values verbatim; and language es
implies the user instruction contains the Spanish-output directive, language
en the English-output directive. -/
theorem cold_email_assembly_spec (request : ColdEmailRequest) :
    (∀ other : ColdEmailRequest, other = request →
      coldEmailMessages other = coldEmailMessages request) ∧
    coldEmailMessages request =
      [⟨"system", system_prompt⟩, ⟨"user", user_prompt request⟩] ∧
    strContains (user_prompt request) request.freelancer_profile ∧
    strContains (user_prompt request) request.client_business ∧
    strContains (user_prompt request) request.client_pain_point ∧
    strContains (user_prompt request) request.offer ∧
    strContains (user_prompt request) request.goal ∧
    (request.language = "es" →
      strContains (user_prompt request) spanishDirective) ∧
    (request.language = "en" →
      strContains (user_prompt request) englishDirective) := by
  refine ⟨fun other h => by rw [h], rfl, ?_, ?_, ?_, ?_, ?_, ?_, ?_⟩
  · refine ⟨"Perfil del freelancer: ",
      "\n" ++ "Negocio del cliente: " ++ request.client_business ++ "\n" ++
      "Punto de dolor del cliente: " ++ request.client_pain_point ++ "\n" ++
      "Oferta: " ++ request.offer ++ "\n" ++
      "Objetivo del email: " ++ request.goal ++ "\n" ++
      "Tono: " ++ request.tone ++ "\n" ++
      "Idioma: " ++ request.language ++ "\n\n" ++
      "Escribe un cold email que el freelancer pueda enviar a este cliente. " ++
      "Si el idioma es \x27en\x27, escribe en Inglés. Si es \x27es\x27, escribe en Español. " ++
      "El email debe estar listo para copiar y pegar.", ?_⟩
    simp [user_prompt, String.append_assoc]
  · refine ⟨"Perfil del freelancer: " ++ request.freelancer_profile ++ "\n" ++
      "Negocio del cliente: ",
      "\n" ++ "Punto de dolor del cliente: " ++ request.client_pain_point ++
      "\n" ++ "Oferta: " ++ request.offer ++ "\n" ++
      "Objetivo del email: " ++ request.goal ++ "\n" ++
      "Tono: " ++ request.tone ++ "\n" ++
      "Idioma: " ++ request.language ++ "\n\n" ++
      "Escribe un cold email que el freelancer pueda enviar a este cliente. " ++
      "Si el idioma es \x27en\x27, escribe en Inglés. Si es \x27es\x27, escribe en Español. " ++
      "El email debe estar listo para copiar y pegar.", ?_⟩
    simp [user_prompt, String.append_assoc]
  · refine ⟨"Perfil del freelancer: " ++ request.freelancer_profile ++ "\n" ++
      "Negocio del cliente: " ++ request.client_business ++ "\n" ++
      "Punto de dolor del cliente: ",
      "\n" ++ "Oferta: " ++ request.offer ++ "\n" ++
      "Objetivo del email: " ++ request.goal ++ "\n" ++
      "Tono: " ++ request.tone ++ "\n" ++
      "Idioma: " ++ request.language ++ "\n\n" ++
      "Escribe un cold email que el freelancer pueda enviar a este cliente. " ++
      "Si el idioma es \x27en\x27, escribe en Inglés. Si es \x27es\x27, escribe en Español. " ++
      "El email debe estar listo para copiar y pegar.", ?_⟩
    simp [user_prompt, String.append_assoc]
  · refine ⟨"Perfil del freelancer: " ++ request.freelancer_profile ++ "\n" ++
      "Negocio del cliente: " ++ request.client_business ++ "\n" ++
      "Punto de dolor del cliente: " ++ request.client_pain_point ++ "\n" ++
      "Oferta: ",
      "\n" ++ "Objetivo del email: " ++ request.goal ++ "\n" ++
      "Tono: " ++ request.tone ++ "\n" ++
      "Idioma: " ++ request.language ++ "\n\n" ++
      "Escribe un cold email que el freelancer pueda enviar a este cliente. " ++
      "Si el idioma es \x27en\x27, escribe en Inglés. Si es \x27es\x27, escribe en Español. " ++
      "El email debe estar listo para copiar y pegar.", ?_⟩
    simp [user_prompt, String.append_assoc]
  · refine ⟨"Perfil del freelancer: " ++ request.freelancer_profile ++ "\n" ++
      "Negocio del cliente: " ++ request.client_business ++ "\n" ++
      "Punto de dolor del cliente: " ++ request.client_pain_point ++ "\n" ++
      "Oferta: " ++ request.offer ++ "\n" ++
      "Objetivo del email: ",
      "\n" ++ "Tono: " ++ request.tone ++ "\n" ++
      "Idioma: " ++ request.language ++ "\n\n" ++
      "Escribe un cold email que el freelancer pueda enviar a este cliente. " ++
      "Si el idioma es \x27en\x27, escribe en Inglés. Si es \x27es\x27, escribe en Español. " ++
      "El email debe estar listo para copiar y pegar.", ?_⟩
    simp [user_prompt, String.append_assoc]
  · intro _
    simp only [user_prompt]
    apply strContains_append_right
    exact strContains_append_left _ spanishDirective_in_literal
  · intro _
    simp only [user_prompt]
    apply strContains_append_right
    exact strContains_append_left _ englishDirective_in_literal

/-- Witness for C5: a concrete Spanish request contains the Spanish-output
directive, a concrete English request the English-output directive. -/
theorem cold_email_assembly_spec_witness :
    strContains
      (user_prompt ⟨"Soy dev", "Panadería", "Sin web", "Hago webs",
        "Responder", "casual", "es"⟩) spanishDirective ∧
    strContains
      (user_prompt ⟨"Soy dev", "Panadería", "Sin web", "Hago webs",
        "Responder", "casual", "en"⟩) englishDirective :=
  ⟨(cold_email_assembly_spec _).2.2.2.2.2.2.2.1 rfl,
   (cold_email_assembly_spec _).2.2.2.2.2.2.2.2 rfl⟩

/-- C9: for every value of the language field, the assembled cold-email user
prompt contains both the English-output and the Spanish-output directive
verbatim as a fixed conditional sentence; the language value enters the
prompt only through the interpolated Idioma line, the surrounding text being
independent of it. -/
theorem cold_email_language_directive_fixed (request : ColdEmailRequest)
    (lang : String) :
    user_prompt { request with language := lang } =
      coldEmailPromptHead request ++ "Idioma: " ++ lang ++
        coldEmailPromptTail ∧
    strContains (user_prompt request) englishDirective ∧
    strContains (user_prompt request) spanishDirective := by
  refine ⟨?_, ?_, ?_⟩
  · simp [user_prompt, coldEmailPromptHead, coldEmailPromptTail,
      String.append_assoc]
  · simp only [user_prompt]
    apply strContains_append_right
    exact strContains_append_left _ englishDirective_in_literal
  · simp only [user_prompt]
    apply strContains_append_right
    exact strContains_append_left _ spanishDirective_in_literal

/-- C6: in the CLI loop, when the gateway fails on a submitted user turn, the
step prints the error in the form [error] message, the retained history is
exactly the prior history (the just-appended user turn removed, all earlier
turns unchanged and in order), and the loop is not terminated. -/
theorem cli_failure_drops_last_user_turn (gw : List MsgDict → CallResult)
    (messages : List MsgDict) (input e : String)
    (hexit : pyLower (pyStrip input) ≠ "exit")
    (hquit : pyLower (pyStrip input) ≠ "quit")
    (hempty : pyStrip input ≠ "")
    (hgw : gw (messages ++ [⟨"user", pyStrip input⟩]) = .runtimeError e) :
    cliStep gw messages input =
      ⟨false, messages, ["[error] " ++ e],
        [messages ++ [⟨"user", pyStrip input⟩]]⟩ := by
  simp [cliStep, hexit, hquit, hempty, hgw, List.dropLast_concat]

/-- Witness for C6: a failing gateway stub on input hola leaves the history
at exactly the initial system message and prints the bracketed error. -/
theorem cli_failure_drops_last_user_turn_witness :
    cliStep (fun _ => CallResult.runtimeError "LLM request failed: boom")
        [initialSystemMessage] "hola" =
      ⟨false, [initialSystemMessage],
        ["[error] " ++ "LLM request failed: boom"],
        [[initialSystemMessage, ⟨"user", "hola"⟩]]⟩ :=
  cli_failure_drops_last_user_turn _ [initialSystemMessage] "hola"
    "LLM request failed: boom" (by decide) (by decide) (by decide) rfl

theorem cliStep_preserves_head (gw : List MsgDict → CallResult)
    (h : List MsgDict) (input : String)
    (hh : h.head? = some initialSystemMessage) :
    (cliStep gw h input).messages.head? = some initialSystemMessage := by
  by_cases h1 : pyLower (pyStrip input) = "exit" ∨
      pyLower (pyStrip input) = "quit"
  · simp [cliStep, h1, hh]
  · by_cases h2 : pyStrip input = ""
    · simp only [cliStep]
      rw [if_neg h1, if_pos h2]
      exact hh
    · cases hg : gw (h ++ [⟨"user", pyStrip input⟩]) with
      | runtimeError exc =>
        simp [cliStep, h1, h2, hg, List.dropLast_concat, hh]
      | ok reply =>
        simp [cliStep, h1, h2, hg, List.head?_append, hh]

theorem cliStep_calls_shape (gw : List MsgDict → CallResult)
    (h : List MsgDict) (input : String) :
    ∀ call ∈ (cliStep gw h input).gatewayCalls,
      call = h ++ [⟨"user", pyStrip input⟩] := by
  by_cases h1 : pyLower (pyStrip input) = "exit" ∨
      pyLower (pyStrip input) = "quit"
  · simp [cliStep, h1]
  · by_cases h2 : pyStrip input = ""
    · simp only [cliStep]
      rw [if_neg h1, if_pos h2]
      simp
    · cases hg : gw (h ++ [⟨"user", pyStrip input⟩]) with
      | runtimeError exc => simp [cliStep, h1, h2, hg]
      | ok reply => simp [cliStep, h1, h2, hg]

/-- C10: every CLI history reachable from the initial state is non-empty and
starts with the fixed initial system message; consequently every gateway
invocation performed by a step from a reachable history receives a list
whose head is that system message, and in particular the failure-path
removal never removes it. -/
theorem cli_system_head_invariant (h : List MsgDict) (hr : CliReachable h) :
    h ≠ [] ∧ h.head? = some initialSystemMessage ∧
    ∀ (gw : List MsgDict → CallResult) (input : String)
      (call : List MsgDict), call ∈ (cliStep gw h input).gatewayCalls →
        call.head? = some initialSystemMessage := by
  have hhead : h.head? = some initialSystemMessage := by
    induction hr with
    | init => rfl
    | step gw input h0 hr0 ih => exact cliStep_preserves_head gw h0 input ih
  refine ⟨?_, hhead, ?_⟩
  · intro hnil
    rw [hnil] at hhead
    simp at hhead
  · intro gw input call hc
    rw [cliStep_calls_shape gw h input call hc]
    simp [List.head?_append, hhead]

/-- Witness for C10: the initial history itself is reachable, non-empty and
headed by the initial system message. -/
theorem cli_system_head_invariant_witness :
    ([initialSystemMessage] : List MsgDict) ≠ [] ∧
    ([initialSystemMessage] : List MsgDict).head? =
      some initialSystemMessage :=
  ⟨(cli_system_head_invariant _ CliReachable.init).1,
   (cli_system_head_invariant _ CliReachable.init).2.1⟩

end CliLlmChatbot
